import Mathlib

/-!
Verification development for the biomcp OncoKB aggregation core.

We give a shallow embedding of the Python modules
`src/biomcp/variants/oncokb_client.py`, `src/biomcp/oncokb_helper.py` and
`src/biomcp/variants/getter.py`.  Python strings are modelled as Lean
`String` (both are sequences of code points), Python JSON-ish values as the
inductive type `Json` below, and the outcome of one call to the external
HTTP layer (`request_api`, which is outside the embedded core) as the
inductive type `ReqOutcome`: the HTTP layer either returns a
`(result, error)` pair or itself raises an exception.
-/

set_option maxRecDepth 8000

namespace BioMCP

/-- Python JSON-like values as handled by the embedded modules.  Numbers are
modelled as integers; no theorem below interpolates a non-scalar value into
a formatted string. -/
inductive Json where
  | null : Json
  | bool (b : Bool) : Json
  | num (n : Int) : Json
  | str (s : String) : Json
  | arr (xs : List Json) : Json
  | obj (fields : List (String × Json)) : Json

/-- Python truthiness (`if x:`) for the modelled values: `None`, `False`,
`0`, `""`, `[]` and an empty dict are falsy, everything else truthy. -/
def pyTruthy : Json → Bool
  | .null => false
  | .bool b => b
  | .num n => n != 0
  | .str s => s != ""
  | .arr xs => !xs.isEmpty
  | .obj fs => !fs.isEmpty

/-- Python `str()` as used by f-string interpolation.  Faithful for the
scalar values that actually occur in the inputs of the theorems below; the
placeholder renderings of lists and dicts are never exercised. -/
def pyStr : Json → String
  | .null => "None"
  | .bool b => if b then "True" else "False"
  | .num n => toString n
  | .str s => s
  | .arr _ => "<list>"
  | .obj _ => "<dict>"

/-- Lookup in an association list where a later binding shadows an earlier
one, matching Python dict construction order (`d[k] = v` overwrites). -/
def lookupLast (fields : List (String × Json)) (key : String) : Option Json :=
  match fields with
  | [] => none
  | (k, v) :: rest =>
      match lookupLast rest key with
      | some w => some w
      | none => if k = key then some v else none

/-- Python `d.get(key, default)` on a dict-like value (returns the default
when the receiver is not a dict; that branch is never exercised because the
Python original would raise there first). -/
def Json.dget (j : Json) (key : String) (default : Json) : Json :=
  match j with
  | .obj fields => (lookupLast fields key).getD default
  | _ => default

/-- The elements of a list-valued field (`for x in xs`). -/
def Json.asList : Json → List Json
  | .arr xs => xs
  | _ => []

/-- Shape test used by `isinstance(result, list)`. -/
def Json.isArr : Json → Bool
  | .arr _ => true
  | _ => false

/-- Shape test used by `isinstance(result, dict)`. -/
def Json.isObj : Json → Bool
  | .obj _ => true
  | _ => false

/-! ### Strings: Python slicing, `startswith`, `split(" ", 1)`, substrings -/

/-- Python slice `s[:n]` (first `n` code points). -/
def pySlice (s : String) (n : Nat) : String := ⟨s.data.take n⟩

/-- Python `a.startswith b` on code-point lists. -/
def startsL : List Char → List Char → Bool
  | _, [] => true
  | [], _ :: _ => false
  | c :: cs, d :: ds => c == d && startsL cs ds

/-- Python `s.startswith(p)`. -/
def pyStartsWith (s p : String) : Bool := startsL s.data p.data

/-- Helper for `split(" ", 1)`: split a character list at the first space. -/
def splitAtSpace : List Char → Option (List Char × List Char)
  | [] => none
  | c :: cs =>
      if c = ' ' then some ([], cs)
      else
        match splitAtSpace cs with
        | none => none
        | some (a, b) => some (c :: a, b)

/-- Python `s.split(" ", 1)` restricted to the shape test
`len(parts) == 2`: `some (before, after)` when `s` contains a space,
`none` otherwise. -/
def pySplitOnce (s : String) : Option (String × String) :=
  match splitAtSpace s.data with
  | none => none
  | some (a, b) => some (⟨a⟩, ⟨b⟩)

/-- Boolean substring test (`sub in s`). -/
def hasSubAux (s sub : List Char) : Bool :=
  match s with
  | [] => sub.isEmpty
  | _ :: cs => startsL s sub || hasSubAux cs sub

/-- Boolean `sub in s` for strings. -/
def strContainsB (s sub : String) : Bool := hasSubAux s.data sub.data

/-- Propositional substring containment, used for statements quantified
over string variables. -/
def StrContains (s sub : String) : Prop :=
  ∃ p q : List Char, s.data = p ++ sub.data ++ q

/-! ### The external HTTP layer's interface

`request_api` lives in `biomcp/http_client.py`, outside the embedded
modules; the client code only consumes its `(result, error)` pair and
guards against it raising.  We therefore model one call's outcome
abstractly. -/

/-- The `RequestError` value produced by the HTTP layer or by the client
itself. -/
structure RequestError where
  code : Int
  message : String
  deriving DecidableEq

/-- Outcome of one `await request_api(...)` call: either a returned
`(result, error)` pair, or the call itself raised an exception whose
rendered text is `e`. -/
inductive ReqOutcome where
  | ret (result : Option Json) (error : Option RequestError) : ReqOutcome
  | exn (e : String) : ReqOutcome

/-! ### `src/biomcp/variants/oncokb_client.py` -/

/-- Constant `ONCOKB_DEMO_URL` (line 29). -/
def ONCOKB_DEMO_URL : String := "https://demo.oncokb.org/api/v1"

/-- Constant `ONCOKB_PROD_URL` (line 30). -/
def ONCOKB_PROD_URL : String := "https://www.oncokb.org/api/v1"

/-- The state built by `OncoKBClient.__init__`.  `token` stands for
`os.getenv("ONCOKB_TOKEN")`: `none` when the variable is unset, `some s`
when it is set to the string `s`. -/
structure OncoKBClient where
  base_url : String
  headers : List (String × String)
  is_demo : Bool
  deriving DecidableEq

/-- Python truthiness of `ONCOKB_TOKEN` (an `os.getenv` result): truthy
exactly when the variable is set to a non-empty string. -/
def tokenTruthy : Option String → Bool
  | none => false
  | some s => s != ""

/-- Embeds `OncoKBClient._build_headers` (lines 53–65). -/
def buildHeaders (token : Option String) : List (String × String) :=
  let headers := [("Accept", "application/json")]
  if tokenTruthy token then
    let t := token.getD ""
    if !pyStartsWith t "Bearer " then
      headers ++ [("Authorization", "Bearer " ++ t)]
    else
      headers ++ [("Authorization", t)]
  else headers

/-- Embeds `OncoKBClient.__init__` (lines 37–51). -/
def oncokbInit (token : Option String) : OncoKBClient :=
  { base_url := if tokenTruthy token then ONCOKB_PROD_URL else ONCOKB_DEMO_URL
    headers := buildHeaders token
    is_demo := !tokenTruthy token }

/-- Whether a header list carries an `Authorization` entry. -/
def hasAuthHeader (hs : List (String × String)) : Bool :=
  hs.any (fun kv => kv.1 == "Authorization")

/-- Embeds `OncoKBClient.get_curated_genes` (lines 67–118), as a function of the
HTTP call's outcome.  Every branch of the Python method, including the
`except Exception` handler, returns a `(payload, error)` pair. -/
def get_curated_genes (o : ReqOutcome) :
    Option (List Json) × Option RequestError :=
  match o with
  | .exn e =>
      (none, some { code := 500, message := "Failed to fetch curated genes: " ++ e })
  | .ret result error =>
      match error with
      | some err => (none, some err)
      | none =>
          match result with
          | some (.arr xs) => (some xs, none)
          | _ => (none, some { code := 500,
                               message := "Unexpected response format from OncoKB" })

/-- Embeds `OncoKBClient.get_gene_annotation` (lines 120–178); `gene` only feeds
the URL (held inside the abstracted outcome) and the log text. -/
def get_gene_ann (o : ReqOutcome) : Option Json × Option RequestError :=
  match o with
  | .exn e =>
      (none, some { code := 500, message := "Failed to fetch gene annotation: " ++ e })
  | .ret result error =>
      match error with
      | some err => (none, some err)
      | none =>
          match result with
          | some (.obj fs) => (some (.obj fs), none)
          | _ => (none, some { code := 500,
                               message := "Unexpected response format from OncoKB" })

/-- Embeds `OncoKBClient.get_variant_annotation` (lines 180–245). -/
def get_variant_ann (o : ReqOutcome) : Option Json × Option RequestError :=
  match o with
  | .exn e =>
      (none, some { code := 500, message := "Failed to fetch variant annotation: " ++ e })
  | .ret result error =>
      match error with
      | some err => (none, some err)
      | none =>
          match result with
          | some (.obj fs) => (some (.obj fs), none)
          | _ => (none, some { code := 500,
                               message := "Unexpected response format from OncoKB" })

/-! ### `src/biomcp/oncokb_helper.py` — formatting -/

/-- The 200-character truncation applied to mutation-effect descriptions
(`_add_basic_annotations`, lines 156–157):
`if len(description) > 200: description = description[:197] + "..."`. -/
def truncateDesc (description : String) : String :=
  if description.length > 200 then pySlice description 197 ++ "..." else description

/-- The 80-character truncation applied to first sentences in the gene
table (`_format_gene_summary`, lines 233–234). -/
def truncateSummary (first_sentence : String) : String :=
  if first_sentence.length > 80 then pySlice first_sentence 77 ++ "..." else first_sentence

/-- Embeds `_add_header_section` (lines 131–136). -/
def addHeaderSection (lines : List String) ( ann : Json) : List String :=
  let query := ann.dget "query" (.obj [])
  let gene := query.dget "hugoSymbol" (.str "Unknown")
  let alt := query.dget "alteration" (.str "Unknown")
  lines ++ ["\n### OncoKB Annotation: " ++ pyStr gene ++ " " ++ pyStr alt]

/-- Embeds `_add_basic_annotations` (lines 139–158). -/
def addBasicAnns (lines : List String) ( ann : Json) : List String :=
  let oncogenic := ann.dget "oncogenic" (.str "Unknown")
  let lines :=
    if pyTruthy oncogenic then lines ++ ["- **Oncogenicity**: " ++ pyStr oncogenic]
    else lines
  let mutation_effect := ann.dget "mutationEffect" (.obj [])
  if pyTruthy mutation_effect then
    let effect := mutation_effect.dget "knownEffect" (.str "Unknown")
    let description := mutation_effect.dget "description" (.str "")
    let lines := lines ++ ["- **Mutation Effect**: " ++ pyStr effect]
    if pyTruthy description then lines ++ ["  - " ++ truncateDesc (pyStr description)]
    else lines
  else lines

/-- Embeds `_add_evidence_levels` (lines 161–169). -/
def addEvidenceLevels (lines : List String) ( ann : Json) : List String :=
  let sensitive_level := ann.dget "highestSensitiveLevel" .null
  let resistance_level := ann.dget "highestResistanceLevel" .null
  let lines :=
    if pyTruthy sensitive_level then
      lines ++ ["- **Highest Sensitivity Level**: " ++ pyStr sensitive_level]
    else lines
  if pyTruthy resistance_level then
    lines ++ ["- **Highest Resistance Level**: " ++ pyStr resistance_level]
  else lines

/-- The comma-joined drug names of one treatment
(`_add_clinical_implications`, lines 183–186): drugs whose `drugName` is
falsy are filtered out before joining. -/
def drugNamesOf (t : Json) : String :=
  let drugs := (t.dget "drugs" (.arr [])).asList
  String.intercalate ", " (drugs.filterMap (fun d =>
    let n := d.dget "drugName" .null
    if pyTruthy n then some (pyStr n) else none))

/-- One treatment's rendered line (`_add_clinical_implications`, lines
181–188): `none` when the joined drug names are empty (`if drug_names:`). -/
def treatmentLine (t : Json) : Option String :=
  let cancer_type := t.dget "cancerType" (.str "Unknown")
  let level := t.dget "level" (.str "Unknown")
  let drug_names := drugNamesOf t
  if drug_names ≠ "" then
    some ("- " ++ pyStr cancer_type ++ ": " ++ drug_names ++ " (Level " ++ pyStr level ++ ")")
  else none

/-- The therapeutic block of `_add_clinical_implications` (lines 177–188):
when `treatments` is truthy, a header line followed by the lines of the
first three treatments that have at least one named drug. -/
def therapeuticSection (treatments : Json) : List String :=
  if pyTruthy treatments then
    "\n**Therapeutic Implications:**" :: (treatments.asList.take 3).filterMap treatmentLine
  else []

/-- Embeds `_add_clinical_implications` (lines 172–201). -/
def addClinicalImplications (lines : List String) ( ann : Json) : List String :=
  let lines := lines ++ therapeuticSection (ann.dget "treatments" (.arr []))
  let diagnostic := ann.dget "diagnosticImplications" (.arr [])
  let prognostic := ann.dget "prognosticImplications" (.arr [])
  let lines :=
    if pyTruthy diagnostic then
      lines ++ ["\n**Diagnostic Implications**: " ++ toString diagnostic.asList.length
                  ++ " cancer type(s)"]
    else lines
  if pyTruthy prognostic then
    lines ++ ["**Prognostic Implications**: " ++ toString prognostic.asList.length
                ++ " cancer type(s)"]
  else lines

/-- Embeds `_format_variant_annotation` (lines 105–128). -/
def formatVariantAnn ( ann : Json) : String :=
  let lines : List String := []
  let lines := addHeaderSection lines ann
  let lines := addBasicAnns lines ann
  let lines := addEvidenceLevels lines ann
  let lines := addClinicalImplications lines ann
  String.intercalate "\n" lines

/-- Python `str.title()` on the characters that actually occur here: an
alphabetic character is uppercased after a non-alphabetic one (or at the
start) and lowercased otherwise. -/
def pyTitleAux : List Char → Bool → List Char
  | [], _ => []
  | c :: cs, prevCased =>
      let cased := c.isAlpha
      (if cased then (if prevCased then c.toLower else c.toUpper) else c)
        :: pyTitleAux cs cased

/-- Python `s.title()`. -/
def pyTitle (s : String) : String := ⟨pyTitleAux s.data false⟩

/-- Python `summary.split(". ")[0]`: the characters before the first `". "`. -/
def upToSep : List Char → List Char
  | [] => []
  | c :: cs => if startsL (c :: cs) ['.', ' '] then [] else c :: upToSep cs

/-- The first sentence of a summary (`_format_gene_summary`, line 232). -/
def firstSentenceOf (s : String) : String := ⟨upToSep s.data⟩

/-- Embeds `_format_gene_summary` (lines 204–243). -/
def formatGeneSummary (anns : List (String × Json)) : String :=
  let header := ["\n### OncoKB Gene Summary",
    "| Gene | Type | Highest Level | Clinical Implications |",
    "|------|------|---------------|----------------------|"]
  let rows := anns.map (fun ga =>
    let gene := ga.1
    let gene_type := ga.2.dget "geneType" (.str "-")
    let gtS := if pyTruthy gene_type then pyTitle (pyStr gene_type) else pyStr gene_type
    let sensitive_level := ga.2.dget "highestSensitiveLevel" (.str "-")
    let summary := ga.2.dget "summary" (.str "")
    let clinical_info :=
      if pyTruthy summary then truncateSummary (firstSentenceOf (pyStr summary))
      else "No summary available"
    "| " ++ gene ++ " | " ++ gtS ++ " | " ++ pyStr sensitive_level ++ " | "
      ++ clinical_info ++ " |")
  String.intercalate "\n" (header ++ rows)

/-! ### `src/biomcp/oncokb_helper.py` — entry points -/

/-- Whether one element of the curated-gene list survives the dict
comprehension `{g["hugoSymbol"]: g for g in curated_genes}`: it must be a
dict carrying a hashable `hugoSymbol` value, otherwise the comprehension
raises and the surrounding `except Exception` turns the whole call into
`None`. -/
def hasHugoKey (j : Json) : Bool :=
  match j with
  | .obj fs =>
      match lookupLast fs "hugoSymbol" with
      | some v => !(v.isArr || v.isObj)
      | none => false
  | _ => false

/-- Embeds `gene in gene_dict` / `gene_dict[gene]` for the comprehension-built
dict: the last curated entry whose `hugoSymbol` equals `g` (later entries
overwrite earlier ones). -/
def lookupGene (curated : List Json) (g : String) : Option Json :=
  match curated with
  | [] => none
  | j :: rest =>
      match lookupGene rest g with
      | some r => some r
      | none =>
          match j.dget "hugoSymbol" .null with
          | .str s => if s = g then some j else none
          | _ => none

/-- Embeds `get_oncokb_summary_for_genes` (lines 52–102), as a function of the
requested genes and of the curated-genes HTTP outcome. -/
def get_oncokb_summary_for_genes (genes : List String) (o : ReqOutcome) :
    Option String :=
  if genes.isEmpty then none
  else
    match get_curated_genes o with
    | (_, some _) => none
    | (none, none) => none
    | (some curated, none) =>
        if curated.isEmpty then none
        else if !(curated.all hasHugoKey) then none
        else
          let anns := genes.filterMap (fun g =>
            (lookupGene curated g).map (fun a => (g, a)))
          if anns.isEmpty then none
          else some (formatGeneSummary anns)

/-! ### `src/biomcp/variants/getter.py` -/

/-- The observable side operations of one `get_variant` call, recorded so
that theorems can state which processing steps run on which path. -/
inductive Effect where
  | injectLinksE
  | filterVariantsE
  | aggregateE
  | oncokbLookupE (gene variant : String)
  deriving DecidableEq

/-- Embeds `get_oncokb_annotation_for_variant` (oncokb_helper.py, lines 13–49):
returns the formatted markdown (or `None`) together with the OncoKB
lookups it performed; no lookup happens when `gene` or `variant` is
falsy. -/
def get_oncokb_ann_for_variant (gene variant : String) (o : ReqOutcome) :
    Option String × List Effect :=
  if gene = "" || variant = "" then (none, [])
  else
    let r := get_variant_ann o
    let effs := [Effect.oncokbLookupE gene variant]
    match r.2, r.1 with
    | some _, _ => (none, effs)
    | none, none => (none, effs)
    | none, some a =>
        if pyTruthy a then (some (formatVariantAnn a), effs) else (none, effs)

/-- Embeds `_format_error_response`'s message (getter.py, lines 30–37). -/
def errorMessage (error : RequestError) (variant_id : String) : String :=
  if error.code = 404 then
    "Variant '" ++ variant_id ++ "' not found in MyVariant.info database. "
      ++ "Please verify the variant identifier (e.g., rs113488022 or "
      ++ "chr7:g.140453136A>T)."
  else
    "Error " ++ toString error.code ++ ": " ++ error.message

/-- Embeds `_format_error_response` (getter.py, lines 18–39). -/
def formatErrorResponse (error : RequestError) (variant_id : String) : List Json :=
  [Json.obj [("error", Json.str (errorMessage error variant_id))]]

/-- Modelled from the spec: the final rendering step of `get_variant`.
`biomcp/render.py` (`render.to_markdown`) and the JSON pretty-printer are
outside `src/`, so the output is kept symbolic: `jsonOut d` stands for
`json.dumps(d, indent=2)` and `mdOut d onc` for `render.to_markdown(d)`
with the formatted OncoKB sections `onc` appended ("any knowledge-base
variant annotation appended as extra Markdown sections after the base
rendering"). -/
inductive Output where
  | jsonOut (data : List Json)
  | mdOut (data : List Json) (oncokb : List String)

/-- The collaborator functions `get_variant` imports from modules that are
outside the embedded core (`links.inject_links`, `filters.filter_variants`,
`external.ExternalVariantAggregator`, `ensure_list`); the theorems below
quantify over arbitrary behaviours of these. `oncokbOutcome g v` is the
HTTP outcome of the OncoKB variant lookup for gene `g` and variant `v`. -/
structure Collab where
  ensureList : Option Json → List Json
  injectLinks : List Json → List Json
  filterVariants : List Json → List Json
  updateExternal : Json → Json
  extractGeneAA : Json → Option String
  oncokbOutcome : String → String → ReqOutcome

/-- The per-variant body of the enrichment loop in `get_variant`
(getter.py, lines 99–132): update with the aggregated external
annotations, then extract `"GENE AA"`, split at the first space and, when
both parts exist, run the OncoKB helper. -/
def processOne (c : Collab) (v : Json) : Json × Option String × List Effect :=
  let v' := c.updateExternal v
  match c.extractGeneAA v' with
  | none => (v', none, [Effect.aggregateE])
  | some ga =>
      match pySplitOnce ga with
      | none => (v', none, [Effect.aggregateE])
      | some gv =>
          let r := get_oncokb_ann_for_variant gv.1 gv.2 (c.oncokbOutcome gv.1 gv.2)
          (v', r.1, Effect.aggregateE :: r.2)

/-- Embeds `get_variant` (getter.py, lines 42–142), as a function of the primary
MyVariant lookup's `(response, error)` pair and of the collaborator
functions.  Returns the symbolic output together with the trace of
processing effects performed. -/
def getVariant (c : Collab) (variant_id : String)
    (output_json include_external : Bool)
    (primary : Option Json × Option RequestError) : Output × List Effect :=
  match primary.2 with
  | some error =>
      let data := formatErrorResponse error variant_id
      (if output_json then Output.jsonOut data else Output.mdOut data [], [])
  | none =>
      let d0 := c.ensureList primary.1
      let d1 := c.injectLinks d0
      let d2 := c.filterVariants d1
      let step :=
        if include_external && !d2.isEmpty then
          let results := d2.map (processOne c)
          (results.map (fun r => r.1),
           results.filterMap (fun r => r.2.1),
           (results.map (fun r => r.2.2)).flatten)
        else (d2, [], [])
      let trace := Effect.injectLinksE :: Effect.filterVariantsE :: step.2.2
      if output_json then (Output.jsonOut step.1, trace)
      else (Output.mdOut step.1 step.2.1, trace)

/-! ### Shared helper lemmas -/

theorem data_append (a b : String) : (a ++ b).data = a.data ++ b.data := by
  cases a; cases b; rfl

theorem data_eq {a b : String} (h : a.data = b.data) : a = b :=
  congrArg String.mk h

theorem length_data (s : String) : s.length = s.data.length := by
  cases s; rfl

theorem pySlice_length (s : String) (n : Nat) :
    (pySlice s n).length = min n s.length := by
  cases s with
  | mk l => simp [pySlice, length_data]

theorem length_append (a b : String) : (a ++ b).length = a.length + b.length := by
  cases a; cases b; simp [length_data, data_append]

/-! ### Claim theorems -/

/-- C1: every OncoKB client method (`get_curated_genes`,
`get_gene_annotation`, `get_variant_annotation`) returns a pair with
exactly one non-null component, for every outcome of the underlying
request call — including the outcome in which the request function itself
raises (the `except Exception` branch). -/
theorem c1_client_pair_exclusive (o : ReqOutcome) :
    (get_curated_genes o).1.isSome = !(get_curated_genes o).2.isSome
    ∧ (get_gene_ann o).1.isSome = !(get_gene_ann o).2.isSome
    ∧ (get_variant_ann o).1.isSome = !(get_variant_ann o).2.isSome := by
  refine ⟨?_, ?_, ?_⟩ <;>
    · rcases o with ⟨_ | j, _ | e⟩ | e <;> first | rfl | (cases j <;> rfl)

/-- C2: the 200-character truncation for mutation-effect descriptions
emits text of length exactly `min L 200`: inputs of length at most 200
pass unchanged, longer inputs become 197 characters plus the 3-character
ellipsis; the 80-character rule for gene-table summaries cuts first
sentences longer than 80 characters to 77 characters plus the ellipsis. -/
theorem c2_truncation_law (s : String) :
    (truncateDesc s).length = min s.length 200
    ∧ (s.length ≤ 200 → truncateDesc s = s)
    ∧ (s.length > 200 →
        truncateDesc s = pySlice s 197 ++ "..." ∧ (pySlice s 197).length = 197)
    ∧ (s.length ≤ 80 → truncateSummary s = s)
    ∧ (s.length > 80 →
        truncateSummary s = pySlice s 77 ++ "..." ∧ (pySlice s 77).length = 77) := by
  refine ⟨?_, ?_, ?_, ?_, ?_⟩
  · by_cases h : s.length > 200
    · have h197 : (pySlice s 197).length = 197 := by
        rw [pySlice_length]; omega
      rw [truncateDesc, if_pos h, length_append, h197]
      have : ("..." : String).length = 3 := rfl
      omega
    · rw [truncateDesc, if_neg h]; omega
  · intro h; rw [truncateDesc, if_neg (by omega)]
  · intro h
    refine ⟨by rw [truncateDesc, if_pos h], ?_⟩
    rw [pySlice_length]; omega
  · intro h; rw [truncateSummary, if_neg (by omega)]
  · intro h
    refine ⟨by rw [truncateSummary, if_pos h], ?_⟩
    rw [pySlice_length]; omega

/-- C2 witness: a 201-character input is cut to exactly 200 characters
(197 plus the ellipsis), and an 81-character first sentence is cut to 77
plus the ellipsis. -/
theorem c2_truncation_law_witness :
    (truncateDesc ⟨List.replicate 201 'a'⟩).length
      = min (String.mk (List.replicate 201 'a')).length 200
    ∧ truncateDesc ⟨List.replicate 201 'a'⟩
        = pySlice ⟨List.replicate 201 'a'⟩ 197 ++ "..."
    ∧ truncateSummary ⟨List.replicate 81 'b'⟩
        = pySlice ⟨List.replicate 81 'b'⟩ 77 ++ "..." :=
  ⟨(c2_truncation_law _).1,
   ((c2_truncation_law _).2.2.1 (by simp [length_data])).1,
   ((c2_truncation_law ⟨List.replicate 81 'b'⟩).2.2.2.2 (by simp [length_data])).1⟩

/-- C6: when the HTTP layer hands back a payload of unexpected structural
shape — a non-list for the curated-genes endpoint, a non-dict for the
gene- and variant-annotation endpoints — the client returns a null payload
and a code-500 error reporting an unexpected response format. -/
theorem c6_unexpected_shape (v : Json) :
    (v.isArr = false →
      get_curated_genes (.ret (some v) none)
        = (none, some ⟨500, "Unexpected response format from OncoKB"⟩))
    ∧ (v.isObj = false →
      get_gene_ann (.ret (some v) none)
        = (none, some ⟨500, "Unexpected response format from OncoKB"⟩))
    ∧ (v.isObj = false →
      get_variant_ann (.ret (some v) none)
        = (none, some ⟨500, "Unexpected response format from OncoKB"⟩)) := by
  refine ⟨?_, ?_, ?_⟩ <;>
    · intro h; cases v <;> first | rfl | simp [Json.isArr, Json.isObj] at h

/-- C6 witness: a JSON `null` payload (neither list nor dict) yields the
code-500 format error on all three endpoints. -/
theorem c6_unexpected_shape_witness :
    get_curated_genes (.ret (some .null) none)
      = (none, some ⟨500, "Unexpected response format from OncoKB"⟩)
    ∧ get_gene_ann (.ret (some .null) none)
      = (none, some ⟨500, "Unexpected response format from OncoKB"⟩)
    ∧ get_variant_ann (.ret (some .null) none)
      = (none, some ⟨500, "Unexpected response format from OncoKB"⟩) :=
  ⟨(c6_unexpected_shape .null).1 rfl,
   (c6_unexpected_shape .null).2.1 rfl,
   (c6_unexpected_shape .null).2.2 rfl⟩

/-- C3 counterexample: with `ONCOKB_TOKEN` present in the environment but
set to the empty string (`os.getenv` returns `""`), the claim's
production-URL/authorization-header behaviour fails: the client is built
against the demo URL with no `Authorization` header, because `__init__`
and `_build_headers` test the token's truthiness, not its presence. -/
theorem c3_counterexample :
    (oncokbInit (some "")).base_url = ONCOKB_DEMO_URL
    ∧ hasAuthHeader (oncokbInit (some "")).headers = false
    ∧ ONCOKB_DEMO_URL ≠ ONCOKB_PROD_URL := by
  refine ⟨rfl, rfl, ?_⟩
  decide

/-- C3 (amended): when the configured token is absent *or empty* (falsy),
the client uses the demo base URL and its headers carry no Authorization
entry; when a non-empty token is configured, it uses the production base
URL and the headers carry an Authorization entry equal to `"Bearer " ++
token`, or to the token verbatim when the token already starts with
`"Bearer "`. -/
theorem c3_token_switch (token : Option String) :
    (tokenTruthy token = false →
      (oncokbInit token).base_url = ONCOKB_DEMO_URL
      ∧ hasAuthHeader (oncokbInit token).headers = false)
    ∧ (∀ t : String, token = some t → t ≠ "" →
      (oncokbInit token).base_url = ONCOKB_PROD_URL
      ∧ (oncokbInit token).headers
          = [("Accept", "application/json"),
             ("Authorization",
               if pyStartsWith t "Bearer " then t else "Bearer " ++ t)]) := by
  constructor
  · intro h
    simp [oncokbInit, buildHeaders, h, hasAuthHeader]
  · intro t ht hne
    subst ht
    have htr : tokenTruthy (some t) = true := by
      simp [tokenTruthy]
      exact hne
    refine ⟨by simp [oncokbInit, htr], ?_⟩
    simp only [oncokbInit, buildHeaders, htr, if_pos, Option.getD]
    by_cases hb : pyStartsWith t "Bearer " <;> simp [hb]

/-- C3 witness: no token gives the demo client without authorization; the
token `"tok123"` gives the production client with `"Bearer tok123"`; the
token `"Bearer abc"` is kept verbatim. -/
theorem c3_token_switch_witness :
    ((oncokbInit none).base_url = ONCOKB_DEMO_URL
      ∧ hasAuthHeader (oncokbInit none).headers = false)
    ∧ ((oncokbInit (some "tok123")).base_url = ONCOKB_PROD_URL
      ∧ (oncokbInit (some "tok123")).headers
          = [("Accept", "application/json"), ("Authorization", "Bearer tok123")])
    ∧ (oncokbInit (some "Bearer abc")).headers
          = [("Accept", "application/json"), ("Authorization", "Bearer abc")] := by
  refine ⟨(c3_token_switch none).1 rfl, ?_, ?_⟩
  · have h := (c3_token_switch (some "tok123")).2 "tok123" rfl (by decide)
    refine ⟨h.1, ?_⟩
    rw [h.2]
    rfl
  · have h := (c3_token_switch (some "Bearer abc")).2 "Bearer abc" rfl (by decide)
    rw [h.2]
    rfl

/-- C4: the primary-lookup error formatter produces a single error entry;
on HTTP 404 its text contains the literal phrase "not found" and the
original variant identifier, and on any other code it reads
`Error <code>: <message>`. -/
theorem c4_error_format (code : Int) (msg variant_id : String) :
    (formatErrorResponse ⟨code, msg⟩ variant_id).length = 1
    ∧ formatErrorResponse ⟨code, msg⟩ variant_id
        = [Json.obj [("error", Json.str (errorMessage ⟨code, msg⟩ variant_id))]]
    ∧ (code = 404 →
        StrContains (errorMessage ⟨code, msg⟩ variant_id) "not found"
        ∧ StrContains (errorMessage ⟨code, msg⟩ variant_id) variant_id)
    ∧ (code ≠ 404 →
        errorMessage ⟨code, msg⟩ variant_id
          = "Error " ++ toString code ++ ": " ++ msg) := by
  refine ⟨rfl, rfl, ?_, ?_⟩
  · intro h
    have hmsg : errorMessage ⟨code, msg⟩ variant_id
        = "Variant '" ++ variant_id ++ "' not found in MyVariant.info database. "
            ++ "Please verify the variant identifier (e.g., rs113488022 or "
            ++ "chr7:g.140453136A>T)." := by
      rw [errorMessage]
      simp [h]
    constructor
    · refine ⟨("Variant '").data ++ variant_id.data ++ ("' ").data,
        (" in MyVariant.info database. Please verify the variant identifier (e.g., rs113488022 or chr7:g.140453136A>T).").data, ?_⟩
      rw [hmsg]
      simp only [data_append, List.append_assoc]
      exact congrArg (fun z => ("Variant '").data ++ (variant_id.data ++ z)) (by decide)
    · refine ⟨("Variant '").data,
        ("' not found in MyVariant.info database. Please verify the variant identifier (e.g., rs113488022 or chr7:g.140453136A>T).").data, ?_⟩
      rw [hmsg]
      simp only [data_append, List.append_assoc]
      exact congrArg (fun z => ("Variant '").data ++ (variant_id.data ++ z)) (by decide)
  · intro h
    rw [errorMessage]
    simp [h]

/-- C4 witness: a 404 on identifier `rs0` yields one entry containing
"not found" and `rs0`; a 500 yields the `Error 500: boom` form. -/
theorem c4_error_format_witness :
    (formatErrorResponse ⟨404, "x"⟩ "rs0").length = 1
    ∧ StrContains (errorMessage ⟨404, "x"⟩ "rs0") "not found"
    ∧ StrContains (errorMessage ⟨404, "x"⟩ "rs0") "rs0"
    ∧ errorMessage ⟨500, "boom"⟩ "rs0" = "Error " ++ toString (500 : Int) ++ ": " ++ "boom" :=
  ⟨(c4_error_format 404 "x" "rs0").1,
   ((c4_error_format 404 "x" "rs0").2.2.1 rfl).1,
   ((c4_error_format 404 "x" "rs0").2.2.1 rfl).2,
   (c4_error_format 500 "boom" "rs0").2.2.2 (by decide)⟩

/-- C5: when the primary variant lookup errors, `get_variant` performs no
enrichment processing at all (empty effect trace: no link injection,
filtering, aggregation or knowledge-base lookup, whatever the
`include_external` flag) and returns exactly one formatted error entry,
as JSON when `output_json` is true and as Markdown otherwise. -/
theorem c5_error_short_circuit (c : Collab) (variant_id : String)
    (output_json include_external : Bool) (response : Option Json)
    (error : RequestError) :
    getVariant c variant_id output_json include_external (response, some error)
      = (if output_json then Output.jsonOut (formatErrorResponse error variant_id)
         else Output.mdOut (formatErrorResponse error variant_id) [], [])
    ∧ (formatErrorResponse error variant_id).length = 1 :=
  ⟨rfl, rfl⟩

/-! ### Concrete inputs for the example-based claims -/

/-- A treatment with one named drug (Vemurafenib). -/
def brafT1 : Json :=
  .obj [("cancerType", .str "Melanoma"), ("level", .str "LEVEL_1"),
        ("drugs", .arr [.obj [("drugName", .str "Vemurafenib")]])]

/-- A treatment with one named drug (Dabrafenib). -/
def brafT2 : Json :=
  .obj [("cancerType", .str "Melanoma"), ("level", .str "LEVEL_1"),
        ("drugs", .arr [.obj [("drugName", .str "Dabrafenib")]])]

/-- A treatment with one named drug (Trametinib). -/
def brafT3 : Json :=
  .obj [("cancerType", .str "Melanoma"), ("level", .str "LEVEL_2"),
        ("drugs", .arr [.obj [("drugName", .str "Trametinib")]])]

/-- The mocked knowledge-base response of the end-to-end example:
BRAF V600E, oncogenic, gain-of-function, LEVEL_1, three treatments each
carrying a named drug. -/
def brafV600E : Json :=
  .obj [("query", .obj [("hugoSymbol", .str "BRAF"), ("alteration", .str "V600E")]),
        ("oncogenic", .str "Oncogenic"),
        ("mutationEffect",
          .obj [("knownEffect", .str "Gain-of-function"),
                ("description", .str "Activating mutation in the BRAF kinase domain.")]),
        ("highestSensitiveLevel", .str "LEVEL_1"),
        ("treatments", .arr [brafT1, brafT2, brafT3])]

/-- C7: on the BRAF V600E example input, the rendered Markdown contains
the header `OncoKB Annotation: BRAF V600E`, the `Oncogenicity` label, the
mutation effect `Gain-of-function`, the evidence level `LEVEL_1`, and all
three treatments' drug names. -/
theorem c7_braf_example :
    (strContainsB (formatVariantAnn brafV600E) "OncoKB Annotation: BRAF V600E"
     && strContainsB (formatVariantAnn brafV600E) "Oncogenicity"
     && strContainsB (formatVariantAnn brafV600E) "Gain-of-function"
     && strContainsB (formatVariantAnn brafV600E) "LEVEL_1"
     && strContainsB (formatVariantAnn brafV600E) "Vemurafenib"
     && strContainsB (formatVariantAnn brafV600E) "Dabrafenib"
     && strContainsB (formatVariantAnn brafV600E) "Trametinib") = true := by
  decide

/-- A treatment whose drug list yields no non-empty drug name. -/
def druglessT (ct : String) : Json :=
  .obj [("cancerType", .str ct), ("level", .str "LEVEL_1"), ("drugs", .arr [])]

/-- C9: the Therapeutic Implications block only ever considers the first
three treatments (appending further treatments changes nothing), any
considered treatment with no non-empty drug name produces no line, and on
an input of three drugless treatments followed by a drug-carrying fourth,
the block renders no treatment entry at all. -/
theorem c9_top3_drugless :
    (∀ treatments : List Json,
      therapeuticSection (.arr treatments)
        = therapeuticSection (.arr (treatments.take 3)))
    ∧ (∀ t : Json, drugNamesOf t = "" → treatmentLine t = none)
    ∧ therapeuticSection (.arr [druglessT "A", druglessT "B", druglessT "C", brafT1])
        = ["\n**Therapeutic Implications:**"] := by
  refine ⟨?_, ?_, by decide⟩
  · intro ts
    cases ts with
    | nil => rfl
    | cons h t =>
        simp [therapeuticSection, pyTruthy, Json.asList, List.take_take]
  · intro t h
    rw [treatmentLine]
    simp [h]

/-- C9 witness: a concrete drugless treatment is omitted, and a
four-treatment list renders identically to its first three. -/
theorem c9_top3_drugless_witness :
    treatmentLine (druglessT "X") = none
    ∧ therapeuticSection (.arr [druglessT "A", druglessT "B", druglessT "C", brafT1])
        = therapeuticSection (.arr ([druglessT "A", druglessT "B", druglessT "C", brafT1].take 3)) :=
  ⟨c9_top3_drugless.2.1 (druglessT "X") (by decide),
   c9_top3_drugless.1 [druglessT "A", druglessT "B", druglessT "C", brafT1]⟩

/-- A curated-gene entry for BRAF in the shape returned by
`/utils/allCuratedGenes`. -/
def brafCurated : Json :=
  .obj [("hugoSymbol", .str "BRAF"), ("geneType", .str "ONCOGENE"),
        ("highestSensitiveLevel", .str "LEVEL_1"),
        ("summary", .str "BRAF is frequently mutated in melanoma. Additional text.")]

/-- C8: the gene-summary operation yields `None` on an empty gene list and
when no requested gene is found in the curated source; whenever it does
produce a table, every row's gene was requested and present in the
curated source; and on `["BRAF", "NOTAGENE"]` against a source containing
only BRAF, the table has a BRAF row and no occurrence of `NOTAGENE`. -/
theorem c8_gene_summary :
    (∀ o : ReqOutcome, get_oncokb_summary_for_genes [] o = none)
    ∧ (∀ (genes : List String) (curated : List Json),
        (∀ g ∈ genes, lookupGene curated g = none) →
        get_oncokb_summary_for_genes genes (.ret (some (.arr curated)) none) = none)
    ∧ (∀ (genes : List String) (curated : List Json),
        get_oncokb_summary_for_genes genes (.ret (some (.arr curated)) none) = none
        ∨ ∃ anns : List (String × Json),
            (∀ p ∈ anns, p.1 ∈ genes ∧ lookupGene curated p.1 = some p.2)
            ∧ get_oncokb_summary_for_genes genes (.ret (some (.arr curated)) none)
                = some (formatGeneSummary anns))
    ∧ ((get_oncokb_summary_for_genes ["BRAF", "NOTAGENE"]
          (.ret (some (.arr [brafCurated])) none)).isSome = true
        ∧ strContainsB ((get_oncokb_summary_for_genes ["BRAF", "NOTAGENE"]
            (.ret (some (.arr [brafCurated])) none)).getD "") "| BRAF |" = true
        ∧ strContainsB ((get_oncokb_summary_for_genes ["BRAF", "NOTAGENE"]
            (.ret (some (.arr [brafCurated])) none)).getD "") "NOTAGENE" = false) := by
  refine ⟨fun o => rfl, ?_, ?_, by decide⟩
  · intro genes curated h
    have hf : genes.filterMap
        (fun g => (lookupGene curated g).map (fun a => (g, a))) = [] := by
      rw [List.filterMap_eq_nil_iff]
      intro g hg
      rw [h g hg]
      rfl
    by_cases hg : genes.isEmpty
    · simp [get_oncokb_summary_for_genes, hg]
    · simp [get_oncokb_summary_for_genes, hg, get_curated_genes, hf]
  · intro genes curated
    by_cases hg : genes.isEmpty
    · left
      simp [get_oncokb_summary_for_genes, hg]
    · by_cases hc : curated.isEmpty
      · left
        simp [get_oncokb_summary_for_genes, hg, get_curated_genes, hc]
      · by_cases hh : curated.all hasHugoKey
        · by_cases ha : (genes.filterMap
              (fun g => (lookupGene curated g).map (fun a => (g, a)))).isEmpty
          · left
            simp [get_oncokb_summary_for_genes, hg, get_curated_genes, hc, hh, ha]
          · right
            refine ⟨genes.filterMap
                (fun g => (lookupGene curated g).map (fun a => (g, a))), ?_, ?_⟩
            · intro p hp
              rw [List.mem_filterMap] at hp
              obtain ⟨g, hgm, hfg⟩ := hp
              cases hl : lookupGene curated g with
              | none => rw [hl] at hfg; simp at hfg
              | some a =>
                  rw [hl] at hfg
                  simp at hfg
                  subst hfg
                  exact ⟨hgm, hl⟩
            · simp [get_oncokb_summary_for_genes, hg, get_curated_genes, hc, hh, ha]
        · left
          simp [get_oncokb_summary_for_genes, hg, get_curated_genes, hc, hh]

/-- C8 witness: a request whose only gene has no curated entry yields
`None` rather than an empty table. -/
theorem c8_gene_summary_witness :
    get_oncokb_summary_for_genes ["XYZ"] (.ret (some (.arr [])) none) = none :=
  c8_gene_summary.2.1 ["XYZ"] [] (fun _ _ => rfl)

/-! ### C10 helper lemmas -/

theorem processOne_fst (c : Collab) (v : Json) :
    (processOne c v).1 = c.updateExternal v := by
  rcases h : c.extractGeneAA (c.updateExternal v) with _ | ga
  · simp [processOne, h]
  · rcases h2 : pySplitOnce ga with _ | gv
    · simp [processOne, h, h2]
    · simp [processOne, h, h2]

theorem oncokb_ann_effs (g w : String) (o : ReqOutcome)
    (hg : g ≠ "") (hw : w ≠ "") :
    (get_oncokb_ann_for_variant g w o).2 = [Effect.oncokbLookupE g w] := by
  rw [get_oncokb_ann_for_variant, if_neg (by simp [hg, hw])]
  rcases h : get_variant_ann o with ⟨r1, r2⟩
  cases r2 with
  | some e => rfl
  | none =>
      cases r1 with
      | none => rfl
      | some a =>
          by_cases ht : pyTruthy a <;> simp [ht]

theorem processOne_effs (c : Collab) (v : Json) (ga g w : String)
    (hga : c.extractGeneAA (c.updateExternal v) = some ga)
    (hsplit : pySplitOnce ga = some (g, w)) (hg : g ≠ "") (hw : w ≠ "") :
    (processOne c v).2.2 = [Effect.aggregateE, Effect.oncokbLookupE g w] := by
  simp only [processOne, hga, hsplit]
  rw [oncokb_ann_effs g w _ hg hw]

/-- C10: in JSON mode the result of `get_variant` is built from the
variant data alone — it has the `jsonOut` shape carrying no OncoKB
Markdown sections, and is unchanged under any change of the OncoKB fetch
behaviour — while, when external enrichment is enabled and a gene and
protein change can be extracted, the OncoKB lookup is still performed
(it appears in the effect trace) and its formatted result is discarded. -/
theorem c10_json_discards_oncokb (c : Collab) (variant_id : String)
    (include_external : Bool) (response : Option Json)
    (fetch fetch' : String → String → ReqOutcome) :
    (∃ data, (getVariant c variant_id true include_external (response, none)).1
        = Output.jsonOut data)
    ∧ ((getVariant { c with oncokbOutcome := fetch }
          variant_id true include_external (response, none)).1
        = (getVariant { c with oncokbOutcome := fetch' }
          variant_id true include_external (response, none)).1)
    ∧ (∀ v ∈ c.filterVariants (c.injectLinks (c.ensureList response)),
        ∀ ga g w : String,
          c.extractGeneAA (c.updateExternal v) = some ga →
          pySplitOnce ga = some (g, w) → g ≠ "" → w ≠ "" →
          include_external = true →
          Effect.oncokbLookupE g w
            ∈ (getVariant c variant_id true include_external (response, none)).2) := by
  have hjson : ∀ (c' : Collab),
      (getVariant c' variant_id true include_external (response, none)).1
        = Output.jsonOut
            (if include_external
                && !(c'.filterVariants (c'.injectLinks (c'.ensureList response))).isEmpty
             then (c'.filterVariants (c'.injectLinks (c'.ensureList response))).map
                    (fun v => c'.updateExternal v)
             else c'.filterVariants (c'.injectLinks (c'.ensureList response))) := by
    intro c'
    simp only [getVariant]
    by_cases h : include_external
        && !(c'.filterVariants (c'.injectLinks (c'.ensureList response))).isEmpty
    · simp [h, List.map_map, Function.comp_def, processOne_fst]
    · simp [h]
  refine ⟨⟨_, hjson c⟩, ?_, ?_⟩
  · rw [hjson, hjson]
  · intro v hv ga g w hga hsplit hg hw hie
    subst hie
    have hne : c.filterVariants (c.injectLinks (c.ensureList response)) ≠ [] :=
      List.ne_nil_of_mem hv
    have hd2 : (c.filterVariants (c.injectLinks (c.ensureList response))).isEmpty
        = false := by
      simpa [List.isEmpty_iff] using hne
    simp only [getVariant, hd2, Bool.and_true, Bool.not_false, Bool.and_self,
      if_true, List.map_map]
    refine List.mem_cons_of_mem _ (List.mem_cons_of_mem _ ?_)
    rw [List.mem_flatten]
    refine ⟨(processOne c v).2.2, ?_, ?_⟩
    · exact List.mem_map_of_mem _ hv
    · rw [processOne_effs c v ga g w hga hsplit hg hw]
      simp

/-- The collaborator instance of the C10 witness: identity enrichment, a
fixed `"BRAF V600E"` extraction, and an OncoKB fetch returning an empty
dict. -/
def demoCollab : Collab :=
  { ensureList := fun r => match r with | some j => [j] | none => []
    injectLinks := fun l => l
    filterVariants := fun l => l
    updateExternal := fun j => j
    extractGeneAA := fun _ => some "BRAF V600E"
    oncokbOutcome := fun _ _ => .ret (some (.obj [])) none }

/-- C10 witness: with JSON output and enrichment enabled on one variant
record, the OncoKB lookup for BRAF V600E appears in the effect trace. -/
theorem c10_json_discards_oncokb_witness :
    Effect.oncokbLookupE "BRAF" "V600E"
      ∈ (getVariant demoCollab "rs1" true true (some (Json.obj []), none)).2 :=
  (c10_json_discards_oncokb demoCollab "rs1" true (some (Json.obj []))
      demoCollab.oncokbOutcome demoCollab.oncokbOutcome).2.2
    (Json.obj []) (by simp [demoCollab]) "BRAF V600E" "BRAF" "V600E"
    rfl rfl (by decide) (by decide) rfl

/-- C1 witness: the exclusivity of the returned pair at a concrete
outcome in which the request function itself raises. -/
theorem c1_client_pair_exclusive_witness :
    (get_curated_genes (.exn "boom")).1.isSome
        = !(get_curated_genes (.exn "boom")).2.isSome
    ∧ (get_gene_ann (.exn "boom")).1.isSome = !(get_gene_ann (.exn "boom")).2.isSome
    ∧ (get_variant_ann (.exn "boom")).1.isSome
        = !(get_variant_ann (.exn "boom")).2.isSome :=
  c1_client_pair_exclusive (.exn "boom")

/-- C5 witness: a concrete 404 on the primary lookup short-circuits
`get_variant` with one error entry and an empty effect trace. -/
theorem c5_error_short_circuit_witness :
    getVariant demoCollab "rs0" true true (none, some ⟨404, "x"⟩)
      = (Output.jsonOut (formatErrorResponse ⟨404, "x"⟩ "rs0"), [])
    ∧ (formatErrorResponse ⟨404, "x"⟩ "rs0").length = 1 :=
  c5_error_short_circuit demoCollab "rs0" true true none ⟨404, "x"⟩

end BioMCP
